import Mathlib

/-!
Verification of the retrieval-and-alignment core of the risk-calculator
data-push pipeline.  The Python sources are shallowly embedded: pandas
frames become Lean lists, nullable floats become `Option ℚ`, the S3
client and the HTTP stack become explicit parameters describing their
observable answers, and the one unbounded `while` loop is run on fuel.

Layout: all definitions first, then all theorems.
-/

namespace RiskCalc

/-! ## Definitions

### Partition Resolver: `s3_pull_latest_date` (data_pipeline_functions.py)

The Python loop state is `(num_days, keycount, response)`.  A probe of
day-offset `d` lists the keys under `prefix/{today - d days}`; we model
the storage answer as a function `kc : Nat → Nat` giving the key count
for each day offset, and keep the probed offset as the response identity.
-/

/-- Loop state of `s3_pull_latest_date`: the day counter, the key count of
the most recent listing, and the most recent listing (day offset probed),
`none` before the first probe. -/
structure S3State where
  numDays : Nat
  keycount : Nat
  response : Option Nat
  deriving DecidableEq, Repr

/-- One iteration of the loop body: probe `today - numDays`, record its
key count and listing, and advance the counter (`num_days += 1`). -/
def s3Iter (kc : Nat → Nat) (s : S3State) : S3State :=
  { numDays := s.numDays + 1, keycount := kc s.numDays, response := some s.numDays }

/-- The `while keycount==0 or num_days >= 10` loop, run on fuel.
`none` means the loop is still running after `fuel` condition checks. -/
def s3Loop (kc : Nat → Nat) : Nat → S3State → Option S3State
  | 0, _ => none
  | fuel + 1, s =>
    if s.keycount = 0 ∨ 10 ≤ s.numDays then s3Loop kc fuel (s3Iter kc s)
    else some s

/-- `s3_pull_latest_date` from data_pipeline_functions.py.  Starts from
`num_days = 0, keycount = 0, response = None`, runs the loop, and on exit
applies the `if num_days >= 10: response = None; keycount = 0` fixup.
`none` means the Python call has not returned after `fuel` checks. -/
def s3_pull_latest_date (kc : Nat → Nat) (fuel : Nat) : Option (Option Nat × Nat) :=
  (s3Loop kc fuel ⟨0, 0, none⟩).map fun s =>
    if 10 ≤ s.numDays then (none, 0) else (s.response, s.keycount)

/-! ### Remote Source Adapter: `get_json` (data_pipeline_functions.py)

`get_json` wraps `urlopen(source)` in `try/except HTTPError`; on the
no-exception path it calls `urlopen` a second time and `json.loads` the
body.  A call's observable outcome at the transport level is one of:
the GET succeeds with a body, the GET raises `HTTPError` (non-2xx
status), or the GET raises some other `URLError` (timeout, connection
failure).  JSON parsing is modelled by a parse function supplied by the
environment; Python exceptions that escape the function are `Except.error`. -/

/-- Observable outcome of `urlopen(source)` for a fixed URL. -/
inductive FetchOutcome where
  | ok (body : String)
  | httpError (errBody : String)
  | netError
  deriving DecidableEq, Repr

/-- Exceptions that can escape `get_json`. -/
inductive PyError where
  | urlError
  | jsonDecodeError
  deriving DecidableEq, Repr

/-- `get_json` from data_pipeline_functions.py.  Only `HTTPError` is
caught (`status = 1`, return `None`); any other `urlopen` failure
propagates, and a body that `json.loads` rejects raises uncaught. -/
def get_json {J : Type} (parse : String → Option J) :
    FetchOutcome → Except PyError (Option J)
  | .httpError _ => .ok none
  | .netError => .error .urlError
  | .ok body =>
    match parse body with
    | some j => .ok (some j)
    | none => .error .jsonDecodeError

/-- Number of HTTP GETs a `get_json` call issues: one inside the `try`,
and on the no-exception path a second one in `with urlopen(source)`. -/
def get_json_getCount : FetchOutcome → Nat
  | .ok _ => 2
  | .httpError _ => 1
  | .netError => 1

/-! ### Daily cases/deaths derivation: `daily_data_cases_deaths`
(data_pipeline_functions.py) -/

/-- pandas `Series.diff()`: element 0 is null; element `i ≥ 1` is
`x[i] - x[i-1]`, null whenever either operand is null. -/
def pdDiff (xs : List (Option ℚ)) : List (Option ℚ) :=
  (List.range xs.length).map fun i =>
    if i = 0 then none
    else Option.map₂ (fun b a => b - a) (xs.getD i none) (xs.getD (i - 1) none)

/-- pandas `Series.fillna(0)`: replace every null by 0. -/
def fillna0 (xs : List (Option ℚ)) : List ℚ := xs.map fun x => x.getD 0

/-- `daily_data_cases_deaths`: `DailyCases = ConfirmedCases.diff().fillna(0)`
and `DailyDeaths = ConfirmedDeaths.diff().fillna(0)`. -/
def daily_data_cases_deaths (confirmedCases confirmedDeaths : List (Option ℚ)) :
    List ℚ × List ℚ :=
  (fillna0 (pdDiff confirmedCases), fillna0 (pdDiff confirmedDeaths))

/-- Modelled from the spec for refinement comparison only:
`daily[t] = cumulative[t] - cumulative[t-1]` with the first element's
undefined diff treated as zero. -/
def dailySpec (xs : List ℚ) : List ℚ :=
  (List.range xs.length).map fun i =>
    if i = 0 then 0 else xs.getD i 0 - xs.getD (i - 1) 0

/-! ### Storage Writer: `df_to_s3` (identical copies in all three files) -/

/-- Outcome of one `df_to_s3` call: skipped on an empty frame, otherwise
completed, logging whether the put's HTTP status was 200. -/
inductive WriteResult where
  | skipped
  | completed (loggedSuccess : Bool)
  deriving DecidableEq, Repr

/-- The put response as read by the code:
`response.get("ResponseMetadata", {}).get("HTTPStatusCode")`, which can
be absent. -/
structure PutResponse where
  httpStatusCode : Option Nat
  deriving DecidableEq, Repr

/-- `df_to_s3`: the frame's rows plus the answer storage would give to a
put.  Returns the outcome together with the number of `put_object` calls
made.  Every frame this pipeline writes carries at least one column, so
`df.empty` is modelled as `rows = []`.  The status check only selects a
log line; no branch raises. -/
def df_to_s3 (rows : List (List (Option ℚ))) (resp : PutResponse) :
    WriteResult × Nat :=
  if rows.isEmpty then (.skipped, 0)
  else (.completed (resp.httpStatusCode == some 200), 1)

/-! ### Series Smoother: `states_smooth` (data_pipeline_functions.py)

`states_smooth(df, column, sigma)` adds `{column}_cleaned = column.fillna(0)`,
sorts the frame by `date`, and adds `Smooth{sigma} =
gaussian_filter1d(cleaned, sigma)`.  The scipy filter is an external
collaborator; it enters the model as a parameter `g`, the only fact ever
used about it being that it maps an n-vector to an n-vector. -/

/-- An input row of `states_smooth`: a date and the nullable source value. -/
structure SRow where
  date : Nat
  value : Option ℚ
  deriving DecidableEq, Repr

/-- An output row of `states_smooth`: the original columns plus the
null-filled copy and the smoothed column. -/
structure SmoothRow where
  date : Nat
  value : Option ℚ
  valueCleaned : ℚ
  smoothed : ℚ
  deriving DecidableEq, Repr

/-- Line `df[column_cleaned] = df[column].fillna(0)`: pair each row with
its null-filled source value. -/
def cleanedRows (df : List SRow) : List (SRow × ℚ) :=
  df.map fun r => (r, r.value.getD 0)

/-- Line `df = df.sort_values(by="date")`. -/
def sortedRows (df : List SRow) : List (SRow × ℚ) :=
  (cleanedRows df).mergeSort fun a b => a.1.date ≤ b.1.date

/-- `states_smooth` from data_pipeline_functions.py: clean, sort, then
assign `Smooth{sigma} = gaussian_filter1d(cleaned, sigma)` row by row. -/
def states_smooth (g : List ℚ → List ℚ) (df : List SRow) : List SmoothRow :=
  ((sortedRows df).zip (g ((sortedRows df).map fun rc => rc.2))).map fun p =>
    { date := p.1.1.date, value := p.1.1.value, valueCleaned := p.1.2,
      smoothed := p.2 }

/-! ### Series Aligner (risk_calculator_data.py)

Dates are modelled as day offsets from the spine's start.  The two
aligners differ: `get_strains_world` assigns the smoothed series as a
bare `pd.Series`, which pandas aligns by positional row index, while
`get_states_strains` merges on the `Date` column. -/

/-- `location_strains_df.merge(new_strain, how='left')` where `new_strain`
holds only a `Date` column: each spine row is kept once when no series
date matches it, and once per matching series date. -/
def mergeLeftDateOnly (spine : List Nat) (sdates : List Nat) : List Nat :=
  spine.flatMap fun d =>
    match sdates.count d with
    | 0 => [d]
    | n + 1 => List.replicate (n + 1) d

/-- Per-lineage column assembly of `get_strains_world`: after the
date-only merge, the smoothed series is assigned with
`location_strains_df[col] = pd.Series(gaussian_filter1d(...))`, which
aligns by row index, not by date: row `i` receives the series' `i`-th
value, and rows past the series' length receive null. -/
def get_strains_world_column (spine : List Nat) (sdates : List Nat)
    (smoothed : List ℚ) : List (Nat × Option ℚ) :=
  let rows := mergeLeftDateOnly spine sdates
  (List.range rows.length).map fun i => (rows.getD i 0, smoothed[i]?)

/-- Per-lineage column assembly of `get_states_strains`:
`pd.merge(location_strains_df, df_lineage_subset, left_on="Date",
right_on="Date", how='left')`: each spine date receives exactly the
series value(s) whose date equals it, and null when none matches. -/
def get_states_strains_column (spine : List Nat) (series : List (Nat × ℚ)) :
    List (Nat × Option ℚ) :=
  spine.flatMap fun d =>
    match series.filter fun p => p.1 == d with
    | [] => [(d, none)]
    | ms => ms.map fun m => (d, some m.2)

/-! ### Lineage Aggregator: `get_variant_data` (risk_calculator_data.py) -/

/-- Python's `pat in s` substring test on strings. -/
def strContainsSub (s pat : String) : Bool :=
  s.data.tails.any fun t => pat.data.isPrefixOf t

/-- A pandas frame as an ordered association list from column name to the
column's values.  Metadata columns (Date, country code/name, population)
carry opaque values; only their presence and length matter here. -/
abbrev Table : Type := List (String × List (Option ℚ))

/-- The frame's column list, `all_data.columns.tolist()`. -/
def colNames (t : Table) : List String := t.map fun c => c.1

/-- `df[names]` column selection: `none` models the KeyError raised when
any requested name is missing. -/
def selectCols (t : Table) : List String → Option (List (List (Option ℚ)))
  | [] => some []
  | n :: ns => do
    let c ← List.lookup n t
    let rest ← selectCols t ns
    some (c :: rest)

/-- `df[cols].sum(axis=1)` with the default `skipna=True`: per row, nulls
count as 0 and an empty column list sums to 0. -/
def sumAxis1 (n : Nat) (cols : List (List (Option ℚ))) : List ℚ :=
  (List.range n).map fun i =>
    cols.foldl (fun acc c => acc + (c.getD i none).getD 0) 0

/-- Beta family rule: `[x for x in all_data_columns if "_b.1.351" in x]`. -/
def betaNames (t : Table) : List String :=
  (colNames t).filter fun x => strContainsSub x "_b.1.351"

/-- Gamma family rule:
`[x for x in all_data_columns if "prevalence_gaussian5_p.1" in x]`. -/
def gammaNames (t : Table) : List String :=
  (colNames t).filter fun x => strContainsSub x "prevalence_gaussian5_p.1"

/-- Delta family rule: the `_ay.` substring selection with
`prevalence_gaussian5_b.1.617.2` appended unconditionally. -/
def deltaNames (t : Table) : List String :=
  ((colNames t).filter fun x => strContainsSub x "_ay.") ++
    ["prevalence_gaussian5_b.1.617.2"]

/-- `get_variant_data` from risk_calculator_data.py.  Alpha is direct
indexing of `prevalence_gaussian5_b.1.1.7` (KeyError when absent); Beta
and Gamma are substring selections over the column list (never a
KeyError); Delta's selection indexes its unconditionally appended extra
column (KeyError when that column is absent); the four metadata columns
are indexed directly.  `none` models an uncaught KeyError;
`Date.astype(str)` only reformats the opaque metadata values and is
dropped. -/
def get_variant_data (t : Table) : Option Table := do
  let alpha ← List.lookup "prevalence_gaussian5_b.1.1.7" t
  let betaCols ← selectCols t (betaNames t)
  let gammaCols ← selectCols t (gammaNames t)
  let deltaCols ← selectCols t (deltaNames t)
  let dateCol ← List.lookup "Date" t
  let cc ← List.lookup "CountryCode" t
  let cn ← List.lookup "CountryName" t
  let pop ← List.lookup "Population" t
  some [("Date", dateCol), ("CountryCode", cc), ("CountryName", cn),
    ("Population", pop), ("Alpha", alpha),
    ("Beta", (sumAxis1 dateCol.length betaCols).map some),
    ("Gamma", (sumAxis1 dateCol.length gammaCols).map some),
    ("Delta", (sumAxis1 dateCol.length deltaCols).map some)]

end RiskCalc

namespace RiskCalc

/-! ## Theorems -/

/-- With a key-count oracle that answers 0 for every day, every probe
leaves `keycount = 0`, so the loop condition stays true forever. -/
theorem s3Loop_allEmpty_none (fuel : Nat) :
    ∀ s : S3State, s.keycount = 0 → s3Loop (fun _ => 0) fuel s = none := by
  induction fuel with
  | zero => intro s _; rfl
  | succ n ih =>
    intro s hs
    simp only [s3Loop, hs, true_or, if_true]
    exact ih _ rfl

/-- C2: the claim says that over a window of 10 empty days the resolver
stops after exactly 10 list calls and returns NotFound; in the code the
loop condition `keycount==0 or num_days>=10` never becomes false once
every day is empty, so the call never returns at all (for every fuel the
loop is still running), contradicting the code's own docstring
("It tries this for 10 days") and its dead `num_days >= 10` fixup. -/
theorem s3_pull_latest_date_allEmpty_diverges (fuel : Nat) :
    s3_pull_latest_date (fun _ => 0) fuel = none := by
  simp [s3_pull_latest_date, s3Loop_allEmpty_none fuel ⟨0, 0, none⟩ rfl]

/-- C3: if day 0 has at least one object, the loop probes day 0 on its
first iteration and exits at the second condition check: exactly one
storage list call was made (`numDays = 1` counts the probes), and the
call returns day 0's listing with its key count. -/
theorem s3_pull_latest_date_day0 (kc : Nat → Nat) (fuel : Nat)
    (hkc : 0 < kc 0) (hfuel : 2 ≤ fuel) :
    s3Loop kc fuel ⟨0, 0, none⟩ = some ⟨1, kc 0, some 0⟩ ∧
      s3_pull_latest_date kc fuel = some (some 0, kc 0) := by
  obtain ⟨f, rfl⟩ : ∃ f, fuel = f + 2 := ⟨fuel - 2, by omega⟩
  have h1 : s3Loop kc (f + 2) ⟨0, 0, none⟩ = some ⟨1, kc 0, some 0⟩ := by
    simp only [s3Loop, s3Iter]
    norm_num
    intro h
    omega
  refine ⟨h1, ?_⟩
  simp [s3_pull_latest_date, h1]

/-- Witness for C3 at a concrete oracle: day 0 has one key, fuel 2. -/
theorem s3_pull_latest_date_day0_witness :
    s3Loop (fun _ => 1) 2 ⟨0, 0, none⟩ = some ⟨1, 1, some 0⟩ ∧
      s3_pull_latest_date (fun _ => 1) 2 = some (some 0, 1) :=
  s3_pull_latest_date_day0 (fun _ => 1) 2 (by decide) (by decide)

/-- C4 counterexample: the claim says every transport-level failure
(non-2xx status, timeout/connection error, unparseable body) yields
`None` without an exception; but the code catches only `HTTPError`, so a
timeout/connection failure propagates `URLError` and an unparseable body
propagates `JSONDecodeError`. -/
theorem get_json_raises_on_net_and_parse :
    get_json (J := Unit) (fun _ => none) .netError = .error .urlError ∧
      get_json (J := Unit) (fun _ => none) (.ok "not json") =
        .error .jsonDecodeError :=
  ⟨rfl, rfl⟩

/-- C4 amended: only a non-2xx HTTP status (`HTTPError`) makes `get_json`
return `None` without raising; other transport failures and parse
failures propagate an exception to the caller. -/
theorem get_json_failure_behavior {J : Type} (parse : String → Option J)
    (e b : String) (hb : parse b = none) :
    get_json parse (.httpError e) = .ok none ∧
      get_json parse .netError = .error .urlError ∧
      get_json parse (.ok b) = .error .jsonDecodeError := by
  refine ⟨rfl, rfl, ?_⟩
  simp [get_json, hb]

/-- Witness for the amended C4 at a concrete parse function and body. -/
theorem get_json_failure_behavior_witness :
    get_json (J := Unit) (fun _ => none) (.httpError "e") = .ok none ∧
      get_json (J := Unit) (fun _ => none) .netError = .error .urlError ∧
      get_json (J := Unit) (fun _ => none) (.ok "b") =
        .error .jsonDecodeError :=
  get_json_failure_behavior (fun _ => none) "e" "b" rfl

/-- C7 counterexample: on the success path `get_json` opens the URL
twice (`urlopen` in the `try`, then again in `with urlopen(source)`),
so it does not issue exactly one GET. -/
theorem get_json_two_gets_on_success :
    get_json_getCount (.ok "") = 2 ∧ (2 : Nat) ≠ 1 :=
  ⟨rfl, by decide⟩

/-- C7 amended: `get_json` issues exactly one GET on either failure path
and exactly two GETs on the success path. -/
theorem get_json_getCount_spec (e b : String) :
    get_json_getCount (.httpError e) = 1 ∧
      get_json_getCount .netError = 1 ∧
      get_json_getCount (.ok b) = 2 :=
  ⟨rfl, rfl, rfl⟩

/-- C6: the daily derivation of `daily_data_cases_deaths` equals the
spec's formula `daily[t] = cumulative[t] - cumulative[t-1]` with the
first element's undefined diff treated as zero, on every null-free
cumulative series; and the spec's scenario holds:
cumulative `[10, 15, 15, 22]` gives daily `[0, 5, 0, 7]`. -/
theorem daily_data_cases_deaths_eq_spec :
    (∀ xs ys : List ℚ,
      daily_data_cases_deaths (xs.map some) (ys.map some) =
        (dailySpec xs, dailySpec ys)) ∧
      daily_data_cases_deaths ([10, 15, 15, 22].map some) [] =
        ([0, 5, 0, 7], []) := by
  have key : ∀ xs : List ℚ, fillna0 (pdDiff (xs.map some)) = dailySpec xs := by
    intro xs
    unfold fillna0 pdDiff dailySpec
    rw [List.map_map, List.length_map]
    refine List.map_congr_left fun i hi => ?_
    simp only [List.mem_range] at hi
    by_cases h0 : i = 0
    · simp [h0]
    · have hi1 : i - 1 < xs.length := by omega
      simp only [Function.comp_apply, if_neg h0, List.getD_eq_getElem?_getD,
        List.getElem?_map, List.getElem?_eq_getElem hi,
        List.getElem?_eq_getElem hi1]
      simp
  constructor
  · intro xs ys
    simp [daily_data_cases_deaths, key]
  · have h := key [10, 15, 15, 22]
    simp only [daily_data_cases_deaths, h]
    norm_num [dailySpec, pdDiff, fillna0, List.range_succ]

/-- C10: a null at any position `i` of the cumulative series makes both
diffs it touches undefined, and `fillna(0)` turns both into zero, so the
daily series stays total, null-free and of the input's length. -/
theorem daily_data_cases_deaths_null_total
    (cases deaths : List (Option ℚ)) (i : Nat)
    (hi : cases[i]? = some none) :
    (daily_data_cases_deaths cases deaths).1.length = cases.length ∧
      (daily_data_cases_deaths cases deaths).1[i]? = some 0 ∧
      (i + 1 < cases.length →
        (daily_data_cases_deaths cases deaths).1[i + 1]? = some 0) := by
  have hlen : i < cases.length := by
    rcases List.getElem?_eq_some.mp hi with ⟨h, _⟩
    exact h
  have hgetD : cases.getD i none = none := by
    rw [List.getD_eq_getElem?_getD, hi]
    rfl
  refine ⟨?_, ?_, ?_⟩
  · simp [daily_data_cases_deaths, fillna0, pdDiff]
  · simp only [daily_data_cases_deaths, fillna0, pdDiff, List.map_map,
      List.getElem?_map, List.getElem?_range, hlen, if_pos,
      Option.map_some, Function.comp_apply]
    rcases Nat.eq_zero_or_pos i with h0 | h0
    · simp [h0]
    · simp [Nat.pos_iff_ne_zero.mp h0, hi]
  · intro hlt
    simp only [daily_data_cases_deaths, fillna0, pdDiff, List.map_map,
      List.getElem?_map, List.getElem?_range, hlt, if_pos,
      Option.map_some, Function.comp_apply]
    simp [hi, Option.map₂_none_right]

/-- Witness for C10: cumulative `[10, null, 15]` with the null at
position 1 gives a 3-long daily series with zeros at positions 1 and 2. -/
theorem daily_data_cases_deaths_null_total_witness :
    (daily_data_cases_deaths [some 10, none, some 15] []).1.length =
        [some 10, none, some 15].length ∧
      (daily_data_cases_deaths [some 10, none, some 15] []).1[1]? = some 0 ∧
      (1 + 1 < [some 10, none, some 15].length →
        (daily_data_cases_deaths [some 10, none, some 15] []).1[1 + 1]? =
          some 0) :=
  daily_data_cases_deaths_null_total [some 10, none, some 15] [] 1 rfl

/-- C8: an empty frame is skipped with no put call; a non-empty frame
makes exactly one put call, and any response status (200 or not, or
absent) only selects a log line — the call completes either way. -/
theorem df_to_s3_behavior (rows : List (List (Option ℚ)))
    (resp : PutResponse) :
    (rows = [] → df_to_s3 rows resp = (.skipped, 0)) ∧
      (rows ≠ [] →
        df_to_s3 rows resp =
          (.completed (resp.httpStatusCode == some 200), 1)) := by
  constructor
  · intro h
    simp [df_to_s3, h]
  · intro h
    simp [df_to_s3, List.isEmpty_iff, h]

/-- The sort of `states_smooth` only permutes the cleaned rows. -/
theorem sortedRows_perm (df : List SRow) :
    (sortedRows df).Perm (cleanedRows df) :=
  List.mergeSort_perm _ _

/-- The sort of `states_smooth` preserves the row count. -/
theorem sortedRows_length (df : List SRow) :
    (sortedRows df).length = df.length := by
  rw [(sortedRows_perm df).length_eq]
  simp [cleanedRows]

/-- C9: for any filter `g` that maps an n-vector to an n-vector (as the
scipy Gaussian filter does) `states_smooth` returns a frame of the same
length whose (date, source value) pairs are exactly the input's pairs
(only reordered by the date sort — no source value is changed); the new
cleaned column is the null-filled copy of the source column. -/
theorem states_smooth_frame (g : List ℚ → List ℚ) (df : List SRow)
    (hg : ∀ l, (g l).length = l.length) :
    (states_smooth g df).length = df.length ∧
      List.Perm ((states_smooth g df).map fun r => (r.date, r.value))
        (df.map fun r => (r.date, r.value)) ∧
      ∀ r ∈ states_smooth g df, r.valueCleaned = r.value.getD 0 := by
  have hglen : (sortedRows df).length ≤
      (g ((sortedRows df).map fun rc => rc.2)).length := by
    rw [hg, List.length_map]
  have hfst : ((sortedRows df).zip
      (g ((sortedRows df).map fun rc => rc.2))).map Prod.fst =
      sortedRows df :=
    List.map_fst_zip _ _ hglen
  refine ⟨?_, ?_, ?_⟩
  · simp only [states_smooth, List.length_map, List.length_zip, hg,
      sortedRows_length]
    omega
  · have h2 : (states_smooth g df).map (fun r => (r.date, r.value)) =
        (sortedRows df).map fun q => (q.1.date, q.1.value) := by
      simp only [states_smooth, List.map_map]
      rw [show ((fun r : SmoothRow => (r.date, r.value)) ∘
          fun p : (SRow × ℚ) × ℚ =>
            ({ date := p.1.1.date, value := p.1.1.value,
               valueCleaned := p.1.2, smoothed := p.2 } : SmoothRow)) =
          ((fun q : SRow × ℚ => (q.1.date, q.1.value)) ∘ Prod.fst) from rfl]
      rw [← List.map_map, hfst]
    rw [h2]
    have h3 := (sortedRows_perm df).map fun q : SRow × ℚ =>
      (q.1.date, q.1.value)
    refine h3.trans ?_
    simp [cleanedRows, List.map_map]
    exact List.Perm.refl _
  · intro r hr
    simp only [states_smooth, List.mem_map] at hr
    obtain ⟨⟨q, v⟩, hp, rfl⟩ := hr
    have hq : q ∈ sortedRows df := (List.of_mem_zip hp).1
    have hq2 : q ∈ cleanedRows df := (sortedRows_perm df).subset hq
    simp only [cleanedRows, List.mem_map] at hq2
    obtain ⟨r0, _, rfl⟩ := hq2
    rfl

/-- Witness for C9 at the identity filter on a two-row unsorted frame. -/
theorem states_smooth_frame_witness :
    (states_smooth (fun l => l) [⟨1, some 2⟩, ⟨0, none⟩]).length =
        ([⟨1, some 2⟩, ⟨0, none⟩] : List SRow).length ∧
      List.Perm
        ((states_smooth (fun l => l) [⟨1, some 2⟩, ⟨0, none⟩]).map
          fun r => (r.date, r.value))
        (([⟨1, some 2⟩, ⟨0, none⟩] : List SRow).map fun r => (r.date, r.value)) ∧
      ∀ r ∈ states_smooth (fun l => l) [⟨1, some 2⟩, ⟨0, none⟩],
        r.valueCleaned = r.value.getD 0 :=
  states_smooth_frame (fun l => l) [⟨1, some 2⟩, ⟨0, none⟩] fun _ => rfl

/-- Witness for C8: the empty frame is skipped without a put, and a
one-row frame with a non-200 response still completes with one put. -/
theorem df_to_s3_behavior_witness :
    df_to_s3 [] ⟨some 200⟩ = (.skipped, 0) ∧
      df_to_s3 [[some 1]] ⟨some 500⟩ =
        (.completed ((⟨some 500⟩ : PutResponse).httpStatusCode == some 200),
          1) :=
  ⟨(df_to_s3_behavior [] ⟨some 200⟩).1 rfl,
    (df_to_s3_behavior [[some 1]] ⟨some 500⟩).2 (by decide)⟩

/-- C1: evaluation of the two cited aligners on the claim's scenario
(spine 2021-01-01..2021-01-03 as offsets `[0, 1, 2]`; lineage series
present on 2021-01-01 with value 1/10 and on 2021-01-03 with value
3/10).  `get_states_strains` merges on exact date equality and yields
the claimed `[0.1, null, 0.3]`, but `get_strains_world` assigns the
series positionally: the value belonging to 2021-01-03 lands on
2021-01-02's row and 2021-01-03 is left null, so the claim fails on
that cited code path. -/
theorem get_strains_world_column_misplaces :
    get_strains_world_column [0, 1, 2] [0, 2] [1/10, 3/10] =
        [(0, some (1/10)), (1, some (3/10)), (2, none)] ∧
      get_states_strains_column [0, 1, 2] [(0, 1/10), (2, 3/10)] =
        [(0, some (1/10)), (1, none), (2, some (3/10))] := by
  constructor
  · norm_num [get_strains_world_column, mergeLeftDateOnly, List.count_cons,
      List.range_succ]
  · norm_num [get_states_strains_column]

/-- C5 counterexample: on a table carrying only the four metadata
columns, the Alpha family rule (an exact name) matches zero columns and
`get_variant_data` raises a KeyError instead of producing an all-zero
Alpha column, so the claim's "all-zero rather than an error" fails for
the exact-match rule. -/
theorem get_variant_data_missing_alpha_errors :
    get_variant_data [("Date", [some 0]), ("CountryCode", [some 0]),
      ("CountryName", [some 0]), ("Population", [some 0])] = none := by
  decide

/-- C5 amended: for the pure substring rules (Beta, Gamma), a rule that
matches zero columns yields an all-zero output column whenever the call
returns a table at all; the exact-name Alpha rule and Delta's explicit
extra column instead raise a KeyError when the named column is absent
(the counterexample above shows the Alpha case). -/
theorem get_variant_data_substring_rule_zero (t : Table) (out : Table)
    (h : get_variant_data t = some out)
    (hbeta : betaNames t = []) (hgamma : gammaNames t = []) :
    (∃ col, List.lookup "Beta" out = some col ∧ ∀ v ∈ col, v = some 0) ∧
      (∃ col, List.lookup "Gamma" out = some col ∧ ∀ v ∈ col, v = some 0) := by
  simp only [get_variant_data, hbeta, hgamma, bind, Option.bind_eq_some] at h
  obtain ⟨alpha, ha, betaCols, hb, gammaCols, hg2, deltaCols, hd,
    dateCol, hdate, cc, hcc, cn, hcn, pop, hpop, hout⟩ := h
  simp only [selectCols, Option.pure_def, Option.some.injEq] at hb hg2 hout
  subst hb
  subst hg2
  subst hout
  constructor
  · refine ⟨(sumAxis1 dateCol.length []).map some, by simp [List.lookup], ?_⟩
    intro v hv
    simp [sumAxis1] at hv
    obtain ⟨i, -, rfl⟩ := hv
    rfl
  · refine ⟨(sumAxis1 dateCol.length []).map some, by simp [List.lookup], ?_⟩
    intro v hv
    simp [sumAxis1] at hv
    obtain ⟨i, -, rfl⟩ := hv
    rfl

/-- Witness for the amended C5: a one-row table with the Alpha and Delta
columns present but no Beta or Gamma columns; its Beta and Gamma output
columns are `[0]`. -/
theorem get_variant_data_substring_rule_zero_witness :
    (∃ col, List.lookup "Beta"
        ([("Date", [some 0]), ("CountryCode", [some 0]),
          ("CountryName", [some 0]), ("Population", [some 0]),
          ("Alpha", [some (1/2)]), ("Beta", [some 0]),
          ("Gamma", [some 0]), ("Delta", [some (1/4)])] : Table) = some col ∧
        ∀ v ∈ col, v = some 0) ∧
      (∃ col, List.lookup "Gamma"
        ([("Date", [some 0]), ("CountryCode", [some 0]),
          ("CountryName", [some 0]), ("Population", [some 0]),
          ("Alpha", [some (1/2)]), ("Beta", [some 0]),
          ("Gamma", [some 0]), ("Delta", [some (1/4)])] : Table) = some col ∧
        ∀ v ∈ col, v = some 0) :=
  get_variant_data_substring_rule_zero
    [("prevalence_gaussian5_b.1.1.7", [some (1/2)]),
      ("prevalence_gaussian5_b.1.617.2", [some (1/4)]),
      ("Date", [some 0]), ("CountryCode", [some 0]),
      ("CountryName", [some 0]), ("Population", [some 0])]
    [("Date", [some 0]), ("CountryCode", [some 0]),
      ("CountryName", [some 0]), ("Population", [some 0]),
      ("Alpha", [some (1/2)]), ("Beta", [some 0]),
      ("Gamma", [some 0]), ("Delta", [some (1/4)])]
    (by simp [get_variant_data, selectCols, betaNames, gammaNames, deltaNames,
      colNames, sumAxis1, List.lookup, List.range_succ, strContainsSub])
    (by decide) (by decide)

end RiskCalc
